import Mathlib

/-!
Verification development for the batching subsystem of a vector-database
client library and for the object-retrieval handler of its CRUD wrapper.

The batching core (`Batch` controller together with its two request
containers) is embedded shallowly: Python scalar arguments become the
`PyVal` type, the HTTP connection becomes an explicit `World` oracle that
records every POST submission, raised exceptions become `PyErr` values,
and every stateful method becomes a pure function from the controller
state (and the world) to the updated state (and the world).

The module `weaviate/batch/crud_batch.py` itself is not part of the
source tree available here; only its unit test suite
(`test/batch/test_crud_batch.py`) is.  The definitions below are
therefore modelled from the specification text, and wherever the unit
tests pin concrete behaviour (threshold arithmetic of the auto-flush
check, recomputation of the recommended counts, configure semantics)
the tests are followed, since they are repository code.

`dataObjectGet` at the bottom embeds `DataObject.get` from
`weaviate/data/crud_data.py`, which is part of the source tree.
-/

namespace WeaviateClient

/-- Python-style scalar argument values as they can be passed to the
configuration surface.  Booleans are a separate constructor even though
Python `bool` is a subclass of `int`: the source rejects booleans
wherever an `int` is expected, so the embedding keeps them apart. -/
inductive PyVal
  | pyNone
  | pyBool (b : Bool)
  | pyInt (n : Int)
  | pyFloat (q : ℚ)
  | pyStr (s : String)
  deriving DecidableEq

/-- Exceptions raised by the embedded code.  `userRaise` stands for an
arbitrary exception raised by caller code inside a scoped batch block. -/
inductive PyErr
  | typeError (field : String)
  | valueError (field : String)
  | connectionError
  | readTimeoutExhausted
  | unexpectedStatus (status : Nat)
  | userRaise (code : Nat)
  deriving DecidableEq

/-- Modelled from the spec: a pending object create operation, as built
by `add_data_object` (properties map, class name, optional id, optional
vector).  The JSON property map is represented as an association list. -/
structure PendingObject where
  properties : List (String × String)
  className : String
  objectId : Option String
  vector : Option (List ℚ)
  deriving DecidableEq

/-- Modelled from the spec: a pending reference create operation, as
built by `add_reference`. -/
structure PendingReference where
  fromId : String
  fromClassName : String
  fromProperty : String
  toId : String
  deriving DecidableEq

/-- Wire shape of one object inside the bulk-objects request body. -/
structure WireObject where
  className : String
  properties : List (String × String)
  objectId : Option String
  vector : Option (List ℚ)
  deriving DecidableEq

/-- Wire shape of one reference inside the bulk-references request body,
in beacon format. -/
structure WireReference where
  fromBeacon : String
  toBeacon : String
  deriving DecidableEq

/-- Serialized request body handed to the connection:
objects go as a record with a fields list, references as a plain array. -/
inductive WireBody
  | objects (fields : List String) (objs : List WireObject)
  | references (refs : List WireReference)
  deriving DecidableEq

def serializeObject (o : PendingObject) : WireObject :=
  ⟨o.className, o.properties, o.objectId, o.vector⟩

/-- Modelled from the spec: the beacon format of a pending reference,
pointing from `weaviate://localhost/class/from_id/from_property` to
`weaviate://localhost/to_id`. -/
def serializeReference (r : PendingReference) : WireReference :=
  ⟨"weaviate://localhost/" ++ r.fromClassName ++ "/" ++ r.fromId ++ "/" ++ r.fromProperty,
   "weaviate://localhost/" ++ r.toId⟩

/-- Modelled from the spec: the bulk-objects request body is
a record with a fields list fixed to ALL and the serialized objects. -/
def serializeObjects (l : List PendingObject) : WireBody :=
  .objects ["ALL"] (l.map serializeObject)

/-- Modelled from the spec: the bulk-references request body is a plain
array of beacon pairs. -/
def serializeReferences (l : List PendingReference) : WireBody :=
  .references (l.map serializeReference)

/-- Behaviour of one POST attempt of the external connection: a
transport-level connection failure, a read timeout, or a reply carrying
a status code, the parsed JSON body and the measured elapsed seconds. -/
inductive PostResult
  | connErr
  | readTimeout
  | reply (status : Nat) (body : String) (elapsed : ℚ)

/-- One recorded POST submission: path and serialized body. -/
structure PostCall where
  path : String
  body : WireBody
  deriving DecidableEq

/-- The world threads the connection oracle through the computation:
`beh i` is the behaviour of the i-th POST attempt ever made, `idx` the
number of attempts made so far, `log` every submission actually sent,
and `flushes` counts how many times `flush` was entered. -/
structure World where
  beh : Nat → PostResult
  idx : Nat
  log : List PostCall
  flushes : Nat

/-- Perform one POST attempt: consume the next oracle behaviour and
record the submission. -/
def post (w : World) (path : String) (body : WireBody) : PostResult × World :=
  (w.beh w.idx, { w with idx := w.idx + 1, log := w.log ++ [⟨path, body⟩] })

/-- Tag for the two kinds of bulk submissions. -/
inductive DataKind
  | objects
  | references
  deriving DecidableEq

def kindPath : DataKind → String
  | .objects => "/batch/objects"
  | .references => "/batch/references"

/-- Modelled from the spec: the wire submission routine with retry
(`Batch._create_data`).  A connection failure is re-raised immediately
and never retried; a read timeout is retried for up to `retries`
additional attempts and raises once the budget is exhausted; a reply
with a status code other than 200 raises an unexpected-status error;
a 200 reply returns the parsed body and the measured elapsed seconds. -/
def createData (kind : DataKind) (body : WireBody) : Nat → World → Except PyErr (String × ℚ) × World
  | retries, w =>
    match post w (kindPath kind) body with
    | (.connErr, w₁) => (.error .connectionError, w₁)
    | (.reply status bd el, w₁) =>
      if status = 200 then (.ok (bd, el), w₁)
      else (.error (.unexpectedStatus status), w₁)
    | (.readTimeout, w₁) =>
      match retries with
      | 0 => (.error .readTimeoutExhausted, w₁)
      | r + 1 => createData kind body r w₁

/-- The batching mode: `none` (batching disabled), `fixed` or `dynamic`. -/
inductive BatchingType
  | none
  | fixed
  | dynamic
  deriving DecidableEq

/-- Modelled from the spec: the full state of the `Batch` controller:
the two containers, the configured batch size, the batching mode, the
two adaptive recommended counts, the target creation time and the
read-timeout retry budget. -/
structure Batch where
  objects : List PendingObject
  references : List PendingReference
  batchSize : Option Nat
  batchingType : BatchingType
  recommendedNumObjects : Option Nat
  recommendedNumReferences : Option Nat
  creationTime : ℚ
  timeoutRetries : Nat
  deriving DecidableEq

/-- The state of a freshly constructed `Batch`. -/
def initialBatch : Batch :=
  { objects := [], references := [], batchSize := Option.none, batchingType := .none,
    recommendedNumObjects := Option.none, recommendedNumReferences := Option.none,
    creationTime := 10, timeoutRetries := 0 }

/-- Floor of a rational to a natural number (the denominator of a
normalized rational is positive, so Euclidean division of the numerator
by the denominator is the floor). -/
def qfloorNat (q : ℚ) : Nat := (Int.ediv q.num (q.den : Int)).toNat

/-- Result of `create_objects` and `create_references`: the immediate
empty list for an empty container, or the parsed bulk response body. -/
inductive CreateResult
  | emptyList
  | json (s : String)
  deriving DecidableEq

/-- Continuation of `create_objects` on the submission outcome: on an
error the exception propagates and the container is left intact
(submit-then-clear ordering); on success the container is cleared and
the recommended count for objects is recomputed from the snapshot
count, the configured creation time and the measured elapsed seconds. -/
def finishObjects (b : Batch) (r : Except PyErr (String × ℚ) × World) :
    Except PyErr CreateResult × Batch × World :=
  match r with
  | (.error e, w₁) => (.error e, b, w₁)
  | (.ok (bd, el), w₁) =>
    (.ok (.json bd),
     { b with objects := [],
              recommendedNumObjects :=
                some (qfloorNat ((b.objects.length : ℚ) * b.creationTime / el)) },
     w₁)

/-- Continuation of `create_references` on the submission outcome,
symmetric to `finishObjects`. -/
def finishReferences (b : Batch) (r : Except PyErr (String × ℚ) × World) :
    Except PyErr CreateResult × Batch × World :=
  match r with
  | (.error e, w₁) => (.error e, b, w₁)
  | (.ok (bd, el), w₁) =>
    (.ok (.json bd),
     { b with references := [],
              recommendedNumReferences :=
                some (qfloorNat ((b.references.length : ℚ) * b.creationTime / el)) },
     w₁)

/-- Modelled from the spec: `Batch.create_objects`.  An empty container
returns an empty list at once, with no network call and no state
change.  Otherwise the serialized container is submitted through the
retry routine; on success the container is cleared and the recommended
object count recomputed (the unit tests pin the recomputation as
unconditional: it happens for every batching mode, see
`test_create_objects`, where the mode is still `None`). -/
def create_objects (b : Batch) (w : World) : Except PyErr CreateResult × Batch × World :=
  if b.objects = [] then (.ok .emptyList, b, w)
  else finishObjects b (createData .objects (serializeObjects b.objects) b.timeoutRetries w)

/-- Modelled from the spec: `Batch.create_references`, symmetric to
`create_objects`. -/
def create_references (b : Batch) (w : World) : Except PyErr CreateResult × Batch × World :=
  if b.references = [] then (.ok .emptyList, b, w)
  else finishReferences b (createData .references (serializeReferences b.references) b.timeoutRetries w)

/-- Modelled from the spec: `Batch.flush` submits both containers,
objects first; a raised exception from either submission propagates.
The world counts every entry into `flush`. -/
def flush (b : Batch) (w : World) : Option PyErr × Batch × World :=
  let r₁ := create_objects b { w with flushes := w.flushes + 1 }
  match r₁.1 with
  | .error e => (some e, r₁.2.1, r₁.2.2)
  | .ok _ =>
    let r₂ := create_references r₁.2.1 r₁.2.2
    match r₂.1 with
    | .error e => (some e, r₂.2.1, r₂.2.2)
    | .ok _ => (Option.none, r₂.2.1, r₂.2.2)

/-- Modelled from the spec and pinned by `test_auto_create`:
`Batch._auto_create`.  In fixed mode the flush threshold compares the
configured batch size against the total number of buffered items (the
sum over both containers: the test asserts a flush at shape (2, 2) with
batch size 4).  In dynamic mode each container count is compared to its
own recommended count.  With batching disabled the check raises. -/
def autoCreate (b : Batch) (w : World) : Option PyErr × Batch × World :=
  if b.batchingType = .fixed then
    if b.batchSize.getD 0 ≤ b.objects.length + b.references.length then flush b w
    else (Option.none, b, w)
  else if b.batchingType = .dynamic then
    if b.recommendedNumObjects.getD 0 ≤ b.objects.length
        ∨ b.recommendedNumReferences.getD 0 ≤ b.references.length then flush b w
    else (Option.none, b, w)
  else (some (.valueError "batching_type"), b, w)

/-- Modelled from the spec: `Batch.add_data_object` appends to the
objects container and then runs the auto-flush check unless batching is
disabled. -/
def add_data_object (o : PendingObject) (b : Batch) (w : World) : Option PyErr × Batch × World :=
  if b.batchingType = .none then (Option.none, { b with objects := b.objects ++ [o] }, w)
  else autoCreate { b with objects := b.objects ++ [o] } w

/-- Modelled from the spec: `Batch.add_reference` appends to the
references container and then runs the auto-flush check unless batching
is disabled. -/
def add_reference (r : PendingReference) (b : Batch) (w : World) : Option PyErr × Batch × World :=
  if b.batchingType = .none then (Option.none, { b with references := b.references ++ [r] }, w)
  else autoCreate { b with references := b.references ++ [r] } w

/-- Modelled from the spec: the `timeout_retries` setter.  Only a
non-bool integer is accepted (TypeError otherwise) and it must be
non-negative (ValueError otherwise); an invalid assignment leaves the
state untouched. -/
def set_timeout_retries (v : PyVal) (b : Batch) : Option PyErr × Batch :=
  match v with
  | .pyInt n =>
    if n < 0 then (some (.valueError "timeout_retries"), b)
    else (Option.none, { b with timeoutRetries := n.toNat })
  | _ => (some (.typeError "timeout_retries"), b)

/-- Modelled from the spec: the `batch_size` setter.  `None` disables
batching; a positive non-bool integer sets the size, keeps dynamic mode
if it was active and otherwise selects fixed mode, initializes each
recommended count that is still unset to the new size (pinned by
`test_batch_size`), and re-runs the auto-flush check. -/
def set_batch_size (v : PyVal) (b : Batch) (w : World) : Option PyErr × Batch × World :=
  match v with
  | .pyNone =>
    (Option.none, { b with batchSize := Option.none, batchingType := .none }, w)
  | .pyInt n =>
    if n ≤ 0 then (some (.valueError "batch_size"), b, w)
    else
      autoCreate
        { b with
          batchSize := some n.toNat,
          batchingType := if b.batchingType = .dynamic then .dynamic else .fixed,
          recommendedNumObjects := some (b.recommendedNumObjects.getD n.toNat),
          recommendedNumReferences := some (b.recommendedNumReferences.getD n.toNat) } w
  | _ => (some (.typeError "batch_size"), b, w)

/-- The Python Real check of the configuration surface: plain ints and
floats are Real, booleans and strings are rejected. -/
def realOfPyVal : PyVal → Option ℚ
  | .pyInt n => some (n : ℚ)
  | .pyFloat q => some q
  | _ => Option.none

/-- Whether a value fails the strict non-bool integer check of the
source (booleans are rejected where an int is expected even though
Python treats `bool` as a subclass of `int`). -/
def isNonIntVal : PyVal → Bool
  | .pyInt _ => false
  | _ => true

/-- Rescaling of one recommended count when the creation time changes
from `tOld` to `tNew`. -/
def rescaleCount (r : Nat) (tNew tOld : ℚ) : Nat := qfloorNat ((r : ℚ) * tNew / tOld)

/-- The controller state after the `creation_time` setter rescaled each
recommended count that is set by the ratio of the new to the old
creation time and assigned the new value. -/
def rescaledBatch (b : Batch) (q : ℚ) : Batch :=
  { b with
    creationTime := q,
    recommendedNumObjects :=
      b.recommendedNumObjects.map (fun r => rescaleCount r q b.creationTime),
    recommendedNumReferences :=
      b.recommendedNumReferences.map (fun r => rescaleCount r q b.creationTime) }

/-- Modelled from the spec: the `creation_time` setter.  The value must
be a positive Real (TypeError on bool or string, ValueError on a
non-positive number).  On change each recommended count that is set is
rescaled by the ratio of the new to the old creation time, and the
auto-flush check is re-run unless batching is disabled. -/
def set_creation_time (v : PyVal) (b : Batch) (w : World) : Option PyErr × Batch × World :=
  match realOfPyVal v with
  | Option.none => (some (.typeError "creation_time"), b, w)
  | some q =>
    if q ≤ 0 then (some (.valueError "creation_time"), b, w)
    else if b.batchingType = .none then (Option.none, rescaledBatch b q, w)
    else autoCreate (rescaledBatch b q) w

/-- Modelled from the spec: the `dynamic` setter.  The value must be a
bool (TypeError otherwise).  With batching disabled the assignment has
no effect; otherwise it toggles between dynamic and fixed mode and
re-runs the auto-flush check. -/
def set_dynamic (v : PyVal) (b : Batch) (w : World) : Option PyErr × Batch × World :=
  match v with
  | .pyBool d =>
    if b.batchingType = .none then (Option.none, b, w)
    else autoCreate { b with batchingType := if d then .dynamic else .fixed } w
  | _ => (some (.typeError "dynamic"), b, w)

/-- Modelled from the spec: `Batch.configure`.  All four parameters are
validated before anything is applied, so a raising call leaves the
whole state untouched (pinned by the error cases of
`test_configure_call`).  The creation time is assigned directly,
without the rescaling of the individual setter (pinned by the third
`configure` call of the test, where the recommended counts survive a
creation-time change unrescaled).  A `None` batch size disables
batching and skips the auto-flush check; a positive size selects
dynamic or fixed mode from the `dynamic` flag, in dynamic mode resets
both recommended counts to the size, and re-runs the auto-flush
check. -/
def configure (bs ct tr dyn : PyVal) (b : Batch) (w : World) : Option PyErr × Batch × World :=
  match realOfPyVal ct with
  | Option.none => (some (.typeError "creation_time"), b, w)
  | some q =>
    if q ≤ 0 then (some (.valueError "creation_time"), b, w)
    else
      match tr with
      | .pyInt trn =>
        if trn < 0 then (some (.valueError "timeout_retries"), b, w)
        else
          match bs with
          | .pyNone =>
            match dyn with
            | .pyBool _ =>
              (Option.none,
               { b with creationTime := q, timeoutRetries := trn.toNat,
                        batchSize := Option.none, batchingType := .none }, w)
            | _ => (some (.typeError "dynamic"), b, w)
          | .pyInt n =>
            if n ≤ 0 then (some (.valueError "batch_size"), b, w)
            else
              match dyn with
              | .pyBool d =>
                autoCreate
                  { b with creationTime := q, timeoutRetries := trn.toNat,
                           batchSize := some n.toNat,
                           batchingType := if d then .dynamic else .fixed,
                           recommendedNumObjects :=
                             if d then some n.toNat else b.recommendedNumObjects,
                           recommendedNumReferences :=
                             if d then some n.toNat else b.recommendedNumReferences } w
              | _ => (some (.typeError "dynamic"), b, w)
          | _ => (some (.typeError "batch_size"), b, w)
      | _ => (some (.typeError "timeout_retries"), b, w)

/-- One operation of the configuration-and-enqueue surface of the
controller, for stating state invariants over arbitrary call
sequences. -/
inductive Op
  | oBatchSize (v : PyVal)
  | oTimeoutRetries (v : PyVal)
  | oCreationTime (v : PyVal)
  | oDynamic (v : PyVal)
  | oConfigure (bs ct tr dyn : PyVal)
  | oAddObject (o : PendingObject)
  | oAddReference (r : PendingReference)
  | oCreateObjects
  | oCreateReferences
  | oFlush

/-- Apply one operation, returning the possibly raised exception and
the state it leaves behind (Python exceptions leave the mutated state
in place, so the state component is always meaningful). -/
def applyOp (op : Op) (b : Batch) (w : World) : Option PyErr × Batch × World :=
  match op with
  | .oBatchSize v => set_batch_size v b w
  | .oTimeoutRetries v => ((set_timeout_retries v b).1, (set_timeout_retries v b).2, w)
  | .oCreationTime v => set_creation_time v b w
  | .oDynamic v => set_dynamic v b w
  | .oConfigure bs ct tr dyn => configure bs ct tr dyn b w
  | .oAddObject o => add_data_object o b w
  | .oAddReference r => add_reference r b w
  | .oCreateObjects =>
    let r := create_objects b w
    match r.1 with
    | .error e => (some e, r.2.1, r.2.2)
    | .ok _ => (Option.none, r.2.1, r.2.2)
  | .oCreateReferences =>
    let r := create_references b w
    match r.1 with
    | .error e => (some e, r.2.1, r.2.2)
    | .ok _ => (Option.none, r.2.1, r.2.2)
  | .oFlush => flush b w

/-- The state left behind by one operation, errors caught by the
caller. -/
def stepOp (op : Op) (s : Batch × World) : Batch × World :=
  ((applyOp op s.1 s.2).2.1, (applyOp op s.1 s.2).2.2)

/-- Run a sequence of operations from a starting state, each exception
caught by the caller. -/
def runOps (ops : List Op) (s : Batch × World) : Batch × World :=
  ops.foldl (fun t op => stepOp op t) s

/-- The derived-mode invariant of the configuration state. -/
def configInvariant (b : Batch) : Prop :=
  b.batchingType = .none ↔ b.batchSize = Option.none

instance (b : Batch) : Decidable (configInvariant b) := by
  unfold configInvariant
  infer_instance

/-- Modelled from the spec: the scoped-session (context-manager)
protocol.  Entering the scope hands the controller to the caller body;
leaving the scope runs `flush` on whatever state the body left behind,
on every exit path, also when the body raised.  The body is an
arbitrary function that may mutate the state, perform its own flushes
and raise. -/
def withScope (b : Batch) (w : World)
    (body : Batch → World → Option PyErr × Batch × World) : Option PyErr × Batch × World :=
  let r₁ := body b w
  let r₂ := flush r₁.2.1 r₁.2.2
  (r₁.1.orElse (fun _ => r₂.1), r₂.2.1, r₂.2.2)

/-- Behaviour of the single GET request issued by `DataObject.get`:
either the transport fails or the server replies with a status code and
a parsed JSON body. -/
inductive GetResponse
  | connFail
  | reply (status : Nat) (body : String)
  deriving DecidableEq

/-- Embeds `DataObject.get` from `weaviate/data/crud_data.py` (lines
440 to 448): a transport failure is re-raised as a connection error; a
200 reply returns the parsed body; a 404 reply returns `None` when a
uuid was given; every other reply raises an unexpected-status error. -/
def dataObjectGet (uuid : Option String) (r : GetResponse) : Except PyErr (Option String) :=
  match r with
  | .connFail => .error .connectionError
  | .reply status body =>
    if status = 200 then .ok (some body)
    else if uuid ≠ Option.none ∧ status = 404 then .ok Option.none
    else .error (.unexpectedStatus status)

/-! Concrete inputs used to evaluate the definitions in closed
statements. -/

/-- A concrete pending object. -/
def pObj : PendingObject := ⟨[], "Test", Option.none, Option.none⟩

/-- A concrete pending reference. -/
def pRef : PendingReference :=
  ⟨"f0153f24-3923-4046-919b-6a3e8fd37394", "Test", "test",
   "f0153f24-3923-4046-919b-6a3e8fd37395"⟩

/-- A connection on which every POST attempt succeeds with status 200,
body "Test" and one second of elapsed time. -/
def okWorld : World := ⟨fun _ => .reply 200 "Test" 1, 0, [], 0⟩

/-- A connection on which every POST attempt fails at transport level. -/
def connFailWorld : World := ⟨fun _ => .connErr, 0, [], 0⟩

/-- A connection on which every POST attempt times out. -/
def allTimeoutWorld : World := ⟨fun _ => .readTimeout, 0, [], 0⟩

/-- A fresh controller holding two buffered objects. -/
def twoObjBatch : Batch := { initialBatch with objects := [pObj, pObj] }

/-- A fresh controller holding one buffered object. -/
def oneObjBatch : Batch := { initialBatch with objects := [pObj] }

/-- A fixed-mode controller with batch size 2 holding one buffered
reference. -/
def fixedTwoBatch : Batch :=
  { initialBatch with batchingType := .fixed, batchSize := some 2, references := [pRef] }

/-- An empty fixed-mode controller with batch size 1. -/
def fixedOneBatch : Batch :=
  { initialBatch with batchingType := .fixed, batchSize := some 1 }

/-- A fixed-mode controller at its flush threshold with recommended
counts 100 and 200 and creation time 5. -/
def rescaleCexBatch : Batch :=
  { initialBatch with
    objects := [pObj]
    batchingType := .fixed
    batchSize := some 1
    recommendedNumObjects := some 100
    recommendedNumReferences := some 200
    creationTime := 5 }

/-- A controller with empty containers, recommended counts 100 and 200
and creation time 5. -/
def rescaleOkBatch : Batch :=
  { initialBatch with
    recommendedNumObjects := some 100
    recommendedNumReferences := some 200
    creationTime := 5 }

/-! Helper lemmas about the submission routine. -/

theorem createData_connErr (kind : DataKind) (body : WireBody) (k : Nat) (w : World)
    (h : w.beh w.idx = .connErr) :
    createData kind body k w =
      (.error .connectionError,
       { w with idx := w.idx + 1, log := w.log ++ [⟨kindPath kind, body⟩] }) := by
  unfold createData post
  simp [h]

theorem createData_badStatus (kind : DataKind) (body : WireBody) (k : Nat) (w : World)
    (s : Nat) (bd : String) (el : ℚ) (h : w.beh w.idx = .reply s bd el) (hs : s ≠ 200) :
    createData kind body k w =
      (.error (.unexpectedStatus s),
       { w with idx := w.idx + 1, log := w.log ++ [⟨kindPath kind, body⟩] }) := by
  unfold createData post
  simp [h, hs]

theorem createData_success (kind : DataKind) (body : WireBody) (k : Nat) (w : World)
    (bd : String) (el : ℚ) (h : w.beh w.idx = .reply 200 bd el) :
    createData kind body k w =
      (.ok (bd, el),
       { w with idx := w.idx + 1, log := w.log ++ [⟨kindPath kind, body⟩] }) := by
  unfold createData post
  simp [h]

theorem createData_all_timeout (kind : DataKind) (body : WireBody) :
    ∀ (k : Nat) (w : World),
      (∀ i, i ≤ k → w.beh (w.idx + i) = .readTimeout) →
      createData kind body k w =
        (.error .readTimeoutExhausted,
         { w with idx := w.idx + (k + 1),
                  log := w.log ++ List.replicate (k + 1) ⟨kindPath kind, body⟩ }) := by
  intro k
  induction k with
  | zero =>
    intro w h
    have h0 : w.beh w.idx = .readTimeout := by simpa using h 0 le_rfl
    unfold createData post
    simp [h0]
  | succ n ih =>
    intro w h
    have h0 : w.beh w.idx = .readTimeout := by simpa using h 0 (Nat.zero_le _)
    have hrec := ih { w with idx := w.idx + 1, log := w.log ++ [⟨kindPath kind, body⟩] }
      (by
        intro i hi
        have := h (i + 1) (by omega)
        simpa [Nat.add_assoc, Nat.add_comm 1 i] using this)
    unfold createData post
    simp only [h0]
    rw [hrec]
    simp [World.mk.injEq, List.replicate_succ]
    omega

theorem createData_flushes (kind : DataKind) (body : WireBody) :
    ∀ (k : Nat) (w : World), ((createData kind body k w).2).flushes = w.flushes := by
  intro k
  induction k with
  | zero =>
    intro w
    unfold createData post
    cases h : w.beh w.idx <;> simp [h]
    split <;> simp
  | succ n ih =>
    intro w
    unfold createData post
    cases h : w.beh w.idx <;> simp [h]
    · exact ih _
    · split <;> simp

/-! Helper lemmas about the create, flush and auto-flush operations. -/

theorem create_objects_config (b : Batch) (w : World) :
    ((create_objects b w).2.1).batchSize = b.batchSize
    ∧ ((create_objects b w).2.1).batchingType = b.batchingType
    ∧ ((create_objects b w).2.2).flushes = w.flushes := by
  unfold create_objects
  split
  · simp
  · rcases h : createData .objects (serializeObjects b.objects) b.timeoutRetries w with ⟨res, w₁⟩
    have hfl := createData_flushes .objects (serializeObjects b.objects) b.timeoutRetries w
    rw [h] at hfl
    simp at hfl
    cases res with
    | error e => simp [finishObjects, hfl]
    | ok p =>
      rcases p with ⟨bd, el⟩
      simp [finishObjects, hfl]

theorem create_references_config (b : Batch) (w : World) :
    ((create_references b w).2.1).batchSize = b.batchSize
    ∧ ((create_references b w).2.1).batchingType = b.batchingType
    ∧ ((create_references b w).2.2).flushes = w.flushes := by
  unfold create_references
  split
  · simp
  · rcases h : createData .references (serializeReferences b.references) b.timeoutRetries w with ⟨res, w₁⟩
    have hfl := createData_flushes .references (serializeReferences b.references) b.timeoutRetries w
    rw [h] at hfl
    simp at hfl
    cases res with
    | error e => simp [finishReferences, hfl]
    | ok p =>
      rcases p with ⟨bd, el⟩
      simp [finishReferences, hfl]

theorem flush_config (b : Batch) (w : World) :
    ((flush b w).2.1).batchSize = b.batchSize
    ∧ ((flush b w).2.1).batchingType = b.batchingType
    ∧ ((flush b w).2.2).flushes = w.flushes + 1 := by
  have hc₁ := create_objects_config b { w with flushes := w.flushes + 1 }
  have hc₂ := create_references_config (create_objects b { w with flushes := w.flushes + 1 }).2.1
    (create_objects b { w with flushes := w.flushes + 1 }).2.2
  simp only [flush]
  cases h₁ : (create_objects b { w with flushes := w.flushes + 1 }).1 with
  | error e => exact ⟨hc₁.1, hc₁.2.1, hc₁.2.2⟩
  | ok c =>
    cases h₂ : (create_references (create_objects b { w with flushes := w.flushes + 1 }).2.1
        (create_objects b { w with flushes := w.flushes + 1 }).2.2).1 with
    | error e =>
      exact ⟨hc₂.1.trans hc₁.1, hc₂.2.1.trans hc₁.2.1, hc₂.2.2.trans hc₁.2.2⟩
    | ok c₂ =>
      exact ⟨hc₂.1.trans hc₁.1, hc₂.2.1.trans hc₁.2.1, hc₂.2.2.trans hc₁.2.2⟩

theorem flush_empty (b : Batch) (w : World) (ho : b.objects = []) (hr : b.references = []) :
    (flush b w).2.1 = b := by
  simp only [flush, create_objects, create_references]
  simp [ho, hr]

theorem autoCreate_config (b : Batch) (w : World) :
    ((autoCreate b w).2.1).batchSize = b.batchSize
    ∧ ((autoCreate b w).2.1).batchingType = b.batchingType := by
  unfold autoCreate
  split_ifs <;>
    first
      | exact ⟨(flush_config b w).1, (flush_config b w).2.1⟩
      | exact ⟨rfl, rfl⟩

theorem autoCreate_empty (b : Batch) (w : World) (ho : b.objects = []) (hr : b.references = []) :
    (autoCreate b w).2.1 = b := by
  unfold autoCreate
  split_ifs <;> first | exact flush_empty b w ho hr | rfl

theorem autoCreate_fixed_flushes (b : Batch) (w : World) (hbt : b.batchingType = .fixed) :
    ((autoCreate b w).2.2).flushes =
      if b.batchSize.getD 0 ≤ b.objects.length + b.references.length
      then w.flushes + 1 else w.flushes := by
  unfold autoCreate
  rw [if_pos hbt]
  split_ifs with hcond
  · exact (flush_config b w).2.2
  · rfl

theorem qfloorNat_natCast (k : Nat) : qfloorNat ((k : ℕ) : ℚ) = k := by
  simp only [qfloorNat, Rat.num_natCast, Rat.den_natCast, Nat.cast_one]
  change (((k : ℕ) : ℤ) / 1).toNat = k
  rw [Int.ediv_one, Int.toNat_natCast]

theorem create_objects_nil (b : Batch) (w : World) (h : b.objects = []) :
    create_objects b w = (.ok .emptyList, b, w) := by
  unfold create_objects
  rw [if_pos h]

theorem create_references_nil (b : Batch) (w : World) (h : b.references = []) :
    create_references b w = (.ok .emptyList, b, w) := by
  unfold create_references
  rw [if_pos h]

theorem create_objects_ok (b : Batch) (w : World) (bd : String) (el : ℚ)
    (hne : b.objects ≠ []) (hbeh : w.beh w.idx = .reply 200 bd el) :
    create_objects b w =
      (.ok (.json bd),
       { b with objects := [],
                recommendedNumObjects :=
                  some (qfloorNat ((b.objects.length : ℚ) * b.creationTime / el)) },
       { w with idx := w.idx + 1,
                log := w.log ++ [⟨"/batch/objects", serializeObjects b.objects⟩] }) := by
  unfold create_objects
  rw [if_neg hne,
    createData_success .objects (serializeObjects b.objects) b.timeoutRetries w bd el hbeh]
  rfl

theorem create_references_ok (b : Batch) (w : World) (bd : String) (el : ℚ)
    (hne : b.references ≠ []) (hbeh : w.beh w.idx = .reply 200 bd el) :
    create_references b w =
      (.ok (.json bd),
       { b with references := [],
                recommendedNumReferences :=
                  some (qfloorNat ((b.references.length : ℚ) * b.creationTime / el)) },
       { w with idx := w.idx + 1,
                log := w.log ++ [⟨"/batch/references", serializeReferences b.references⟩] }) := by
  unfold create_references
  rw [if_neg hne,
    createData_success .references (serializeReferences b.references) b.timeoutRetries w bd el hbeh]
  rfl

theorem flush_first_ok (b : Batch) (w : World) (bd : String) (el : ℚ)
    (hne : b.objects ≠ []) (hbeh : w.beh w.idx = .reply 200 bd el)
    (hrefs : b.references = []) :
    (flush b w).2.1 =
      { b with objects := [],
               recommendedNumObjects :=
                 some (qfloorNat ((b.objects.length : ℚ) * b.creationTime / el)) } := by
  have h₁ := create_objects_ok b { w with flushes := w.flushes + 1 } bd el hne hbeh
  have hr1 : (create_objects b { w with flushes := w.flushes + 1 }).1 = .ok (.json bd) := by
    rw [h₁]
  have hb₁ : (create_objects b { w with flushes := w.flushes + 1 }).2.1 =
      { b with objects := [],
               recommendedNumObjects :=
                 some (qfloorNat ((b.objects.length : ℚ) * b.creationTime / el)) } := by
    rw [h₁]
  simp only [flush]
  rw [hr1]
  dsimp only
  rw [create_references_nil ((create_objects b { w with flushes := w.flushes + 1 }).2.1)
    ((create_objects b { w with flushes := w.flushes + 1 }).2.2) (by rw [hb₁]; exact hrefs)]
  exact hb₁

/-! Claim theorems. -/

/-- C4: for every non-negative retry budget `k`, when every POST
attempt times out, the wire submission routine performs exactly `k + 1`
total submission attempts (the log records one entry per attempt) and
then raises the read-timeout error; in particular `timeout_retries = 3`
gives exactly 4 attempts. -/
theorem timeout_retries_attempt_count (kind : DataKind) (body : WireBody) (k : Nat) (w : World)
    (h : ∀ i, i ≤ k → w.beh (w.idx + i) = .readTimeout) :
    (createData kind body k w).1 = .error .readTimeoutExhausted
    ∧ ((createData kind body k w).2).log.length = w.log.length + (k + 1) := by
  rw [createData_all_timeout kind body k w h]
  simp

/-- Witness for C4 at `timeout_retries = 3` on an all-timeout
connection: exactly 4 submission attempts are recorded. -/
theorem timeout_retries_attempt_count_witness :
    (createData .objects (serializeObjects []) 3 allTimeoutWorld).1 = .error .readTimeoutExhausted
    ∧ ((createData .objects (serializeObjects []) 3 allTimeoutWorld).2).log.length = 4 := by
  have h := timeout_retries_attempt_count .objects (serializeObjects []) 3 allTimeoutWorld
    (fun i _ => rfl)
  simpa using h

/-- C3: a failing submission (connection error, exhausted read-timeout
retries, or a non-200 status) propagates out of
`create_objects`/`create_references` with the container left fully
intact: the submit-then-clear order clears only after success.  The
first two conjuncts state the container (indeed the whole controller
state) is unchanged whenever the wire routine fails; the remaining
three identify the three failure modes of the wire routine. -/
theorem failed_submission_preserves_containers :
    (∀ (b : Batch) (w : World) (e : PyErr), b.objects ≠ [] →
      (createData .objects (serializeObjects b.objects) b.timeoutRetries w).1 = .error e →
      (create_objects b w).1 = .error e ∧ (create_objects b w).2.1 = b)
    ∧ (∀ (b : Batch) (w : World) (e : PyErr), b.references ≠ [] →
      (createData .references (serializeReferences b.references) b.timeoutRetries w).1 = .error e →
      (create_references b w).1 = .error e ∧ (create_references b w).2.1 = b)
    ∧ (∀ (kind : DataKind) (body : WireBody) (k : Nat) (w : World),
      w.beh w.idx = .connErr → (createData kind body k w).1 = .error .connectionError)
    ∧ (∀ (kind : DataKind) (body : WireBody) (k : Nat) (w : World),
      (∀ i, i ≤ k → w.beh (w.idx + i) = .readTimeout) →
      (createData kind body k w).1 = .error .readTimeoutExhausted)
    ∧ (∀ (kind : DataKind) (body : WireBody) (k : Nat) (w : World) (s : Nat) (bd : String)
      (el : ℚ), w.beh w.idx = .reply s bd el → s ≠ 200 →
      (createData kind body k w).1 = .error (.unexpectedStatus s)) := by
  refine ⟨?_, ?_, ?_, ?_, ?_⟩
  · intro b w e hne herr
    unfold create_objects
    rw [if_neg hne]
    rcases hcd : createData .objects (serializeObjects b.objects) b.timeoutRetries w
      with ⟨res, w₁⟩
    rw [hcd] at herr
    simp at herr
    subst herr
    exact ⟨rfl, rfl⟩
  · intro b w e hne herr
    unfold create_references
    rw [if_neg hne]
    rcases hcd : createData .references (serializeReferences b.references) b.timeoutRetries w
      with ⟨res, w₁⟩
    rw [hcd] at herr
    simp at herr
    subst herr
    exact ⟨rfl, rfl⟩
  · intro kind body k w h
    rw [createData_connErr kind body k w h]
  · intro kind body k w h
    rw [createData_all_timeout kind body k w h]
  · intro kind body k w s bd el h hs
    rw [createData_badStatus kind body k w s bd el h hs]

/-- Witness for C3: on a connection that fails at transport level, a
controller holding one object keeps it (and all other state) after the
failed `create_objects` call. -/
theorem failed_submission_preserves_containers_witness :
    oneObjBatch.objects ≠ []
    ∧ (createData .objects (serializeObjects oneObjBatch.objects) oneObjBatch.timeoutRetries
        connFailWorld).1 = .error .connectionError
    ∧ (create_objects oneObjBatch connFailWorld).1 = .error .connectionError
    ∧ (create_objects oneObjBatch connFailWorld).2.1 = oneObjBatch := by
  have h := failed_submission_preserves_containers.1 oneObjBatch connFailWorld
    .connectionError (by decide) rfl
  exact ⟨by decide, rfl, h.1, h.2⟩

/-- C8: `create_objects` (resp. `create_references`) on an empty
container returns the empty list, performs zero network calls and
leaves the controller state and the world (hence the recommended
counts, batch size, creation time, timeout retries and batching type)
completely unchanged. -/
theorem create_on_empty_noop (b : Batch) (w : World) :
    (b.objects = [] → create_objects b w = (.ok .emptyList, b, w))
    ∧ (b.references = [] → create_references b w = (.ok .emptyList, b, w)) :=
  ⟨fun h => create_objects_nil b w h, fun h => create_references_nil b w h⟩

/-- Witness for C8 on a freshly constructed controller: both calls
return the empty list and change nothing. -/
theorem create_on_empty_noop_witness :
    create_objects initialBatch okWorld = (.ok .emptyList, initialBatch, okWorld)
    ∧ create_references initialBatch okWorld = (.ok .emptyList, initialBatch, okWorld) :=
  ⟨(create_on_empty_noop initialBatch okWorld).1 rfl,
   (create_on_empty_noop initialBatch okWorld).2 rfl⟩

/-- C10: `DataObject.get` with a non-None uuid returns `None` on a 404
reply instead of a list or an exception; with uuid `None` a 404 raises
the unexpected-status error; a 200 reply returns the parsed body, and
no other status returns a parsed body. -/
theorem get_status_handling :
    (∀ (u : String) (body : String), dataObjectGet (some u) (.reply 404 body) = .ok Option.none)
    ∧ (∀ (body : String),
      dataObjectGet Option.none (.reply 404 body) = .error (.unexpectedStatus 404))
    ∧ (∀ (uuid : Option String) (body : String),
      dataObjectGet uuid (.reply 200 body) = .ok (some body))
    ∧ (∀ (uuid : Option String) (s : Nat) (body bd : String), s ≠ 200 →
      dataObjectGet uuid (.reply s body) ≠ .ok (some bd)) := by
  refine ⟨?_, ?_, ?_, ?_⟩
  · intro u body
    simp [dataObjectGet]
  · intro body
    simp [dataObjectGet]
  · intro uuid body
    simp [dataObjectGet]
  · intro uuid s body bd hs
    unfold dataObjectGet
    dsimp only
    rw [if_neg hs]
    split_ifs with h
    · simp
    · simp

/-- Witness for C10: a 500 reply never yields a parsed body. -/
theorem get_status_handling_witness :
    (500 : Nat) ≠ 200
    ∧ dataObjectGet (some "d842a0f4") (.reply 500 "body") ≠ .ok (some "body") :=
  ⟨by decide, get_status_handling.2.2.2 (some "d842a0f4") 500 "body" "body" (by decide)⟩

/-- C1 counterexample: on a freshly constructed controller (batching
mode `None`, hence not `dynamic`) holding two objects, a successful
`create_objects` call with elapsed time 1 second sets
`recommended_num_objects` to 20 even though the claim asserts the
recommended counts are left unchanged whenever the mode is not
`dynamic`. -/
theorem create_objects_recompute_cex :
    twoObjBatch.batchingType ≠ .dynamic
    ∧ twoObjBatch.recommendedNumObjects = Option.none
    ∧ (create_objects twoObjBatch okWorld).2.1.recommendedNumObjects = some 20 := by
  refine ⟨by decide, rfl, ?_⟩
  rw [create_objects_ok twoObjBatch okWorld "Test" 1 (by decide) rfl]
  dsimp only
  have h : ((twoObjBatch.objects.length : ℕ) : ℚ) * twoObjBatch.creationTime / 1
      = ((20 : ℕ) : ℚ) := by
    show ((2 : ℕ) : ℚ) * (10 : ℚ) / 1 = ((20 : ℕ) : ℚ)
    push_cast
    norm_num
  rw [h, qfloorNat_natCast]

/-- C1 (amended): for every nonempty objects (resp. references)
container and every submission answered with status 200,
`create_objects` (resp. `create_references`) submits the serialized
container to its kind path, clears it, returns the parsed body, and
recomputes the recommended count of that kind as
`floor(snapshot_count * creation_time / elapsed_seconds)` on every
successful call, regardless of `batching_type` (the unit test
`test_create_objects` pins the recomputation with batching mode
`None`); the recommended count of the other kind is unchanged. -/
theorem create_recompute_on_success :
    (∀ (b : Batch) (w : World) (bd : String) (el : ℚ), b.objects ≠ [] →
      w.beh w.idx = .reply 200 bd el →
      create_objects b w =
        (.ok (.json bd),
         { b with
             objects := []
             recommendedNumObjects :=
               some (qfloorNat ((b.objects.length : ℚ) * b.creationTime / el)) },
         { w with
             idx := w.idx + 1
             log := w.log ++ [⟨"/batch/objects", serializeObjects b.objects⟩] }))
    ∧ (∀ (b : Batch) (w : World) (bd : String) (el : ℚ), b.references ≠ [] →
      w.beh w.idx = .reply 200 bd el →
      create_references b w =
        (.ok (.json bd),
         { b with
             references := []
             recommendedNumReferences :=
               some (qfloorNat ((b.references.length : ℚ) * b.creationTime / el)) },
         { w with
             idx := w.idx + 1
             log := w.log ++ [⟨"/batch/references", serializeReferences b.references⟩] })) :=
  ⟨fun b w bd el hne hbeh => create_objects_ok b w bd el hne hbeh,
   fun b w bd el hne hbeh => create_references_ok b w bd el hne hbeh⟩

/-- Witness for the amended C1 on a controller holding two objects and
a 200 reply with one second of elapsed time. -/
theorem create_recompute_on_success_witness :
    twoObjBatch.objects ≠ []
    ∧ okWorld.beh okWorld.idx = .reply 200 "Test" 1
    ∧ create_objects twoObjBatch okWorld =
        (.ok (.json "Test"),
         { twoObjBatch with
             objects := []
             recommendedNumObjects :=
               some (qfloorNat ((twoObjBatch.objects.length : ℚ) * twoObjBatch.creationTime / 1)) },
         { okWorld with
             idx := okWorld.idx + 1
             log := okWorld.log ++ [⟨"/batch/objects", serializeObjects twoObjBatch.objects⟩] }) :=
  ⟨by decide, rfl, create_recompute_on_success.1 twoObjBatch okWorld "Test" 1 (by decide) rfl⟩

/-- C2 counterexample: in fixed mode with batch size 2, a controller
holding one buffered reference flushes on enqueueing one object (shape
(1, 1), sum 2), although neither container count alone reaches the
batch size, contradicting the claimed per-container comparison.  This
is the behaviour the unit test `test_auto_create` pins (it asserts a
flush at shape (2, 2) with batch size 4). -/
theorem fixed_auto_flush_sum_cex :
    (¬ (2 ≤ (fixedTwoBatch.objects ++ [pObj]).length ∨ 2 ≤ fixedTwoBatch.references.length))
    ∧ fixedTwoBatch.batchSize = some 2
    ∧ fixedTwoBatch.batchingType = .fixed
    ∧ (add_data_object pObj fixedTwoBatch okWorld).2.2.flushes = okWorld.flushes + 1 := by
  refine ⟨by decide, rfl, rfl, ?_⟩
  rfl

/-- C2 (amended): in fixed batching mode with `batch_size = n`, after
every enqueue the auto-flush check triggers a flush exactly when
`count(objects) + count(references) ≥ n`, the two container counts
being summed (the flush counter of the world increments exactly on a
flush). -/
theorem fixed_auto_flush_sum :
    (∀ (b : Batch) (w : World) (o : PendingObject) (n : Nat),
      b.batchingType = .fixed → b.batchSize = some n →
      (((add_data_object o b w).2.2).flushes = w.flushes + 1 ↔
        n ≤ b.objects.length + 1 + b.references.length))
    ∧ (∀ (b : Batch) (w : World) (r : PendingReference) (n : Nat),
      b.batchingType = .fixed → b.batchSize = some n →
      (((add_reference r b w).2.2).flushes = w.flushes + 1 ↔
        n ≤ b.objects.length + (b.references.length + 1))) := by
  constructor
  · intro b w o n hbt hbs
    unfold add_data_object
    rw [if_neg (by rw [hbt]; decide)]
    rw [autoCreate_fixed_flushes { b with objects := b.objects ++ [o] } w hbt]
    dsimp only
    rw [hbs]
    simp only [Option.getD_some, List.length_append, List.length_cons, List.length_nil,
      Nat.zero_add]
    split_ifs with h
    · exact iff_of_true rfl h
    · exact iff_of_false (by omega) h
  · intro b w r n hbt hbs
    unfold add_reference
    rw [if_neg (by rw [hbt]; decide)]
    rw [autoCreate_fixed_flushes { b with references := b.references ++ [r] } w hbt]
    dsimp only
    rw [hbs]
    simp only [Option.getD_some, List.length_append, List.length_cons, List.length_nil,
      Nat.zero_add]
    split_ifs with h
    · exact iff_of_true rfl h
    · exact iff_of_false (by omega) h

/-- Witness for the amended C2: an empty fixed-mode controller with
batch size 1 flushes on the first enqueued object. -/
theorem fixed_auto_flush_sum_witness :
    fixedOneBatch.batchingType = .fixed
    ∧ fixedOneBatch.batchSize = some 1
    ∧ ((add_data_object pObj fixedOneBatch okWorld).2.2.flushes = okWorld.flushes + 1 ↔
        1 ≤ fixedOneBatch.objects.length + 1 + fixedOneBatch.references.length) :=
  ⟨rfl, rfl, fixed_auto_flush_sum.1 fixedOneBatch okWorld pObj 1 rfl rfl⟩

/-- C7: using the controller as a scoped session runs exactly one flush
on scope exit, on every exit path: whatever the caller body did to the
state, and whether or not it raised, the flush counter after leaving
the scope is exactly one more than the body left it. -/
theorem scoped_session_flushes_once (b : Batch) (w : World)
    (body : Batch → World → Option PyErr × Batch × World) :
    ((withScope b w body).2.2).flushes = ((body b w).2.2).flushes + 1 := by
  simp only [withScope]
  exact (flush_config (body b w).2.1 (body b w).2.2).2.2

/-! Helper lemmas for the configuration invariant. -/

theorem configInvariant_iff (b₁ b : Batch) (h1 : b₁.batchSize = b.batchSize)
    (h2 : b₁.batchingType = b.batchingType) : configInvariant b₁ ↔ configInvariant b := by
  unfold configInvariant
  rw [h1, h2]

theorem inv_of_values (b : Batch) (hbt : b.batchingType ≠ .none)
    (hbs : b.batchSize ≠ Option.none) : configInvariant b :=
  ⟨fun hc => absurd hc hbt, fun hc => absurd hc hbs⟩

theorem inv_of_none (b : Batch) (hbt : b.batchingType = .none)
    (hbs : b.batchSize = Option.none) : configInvariant b :=
  ⟨fun _ => hbs, fun _ => hbt⟩

theorem autoCreate_inv (b₁ : Batch) (w : World) (hbt : b₁.batchingType ≠ .none)
    (hbs : b₁.batchSize ≠ Option.none) : configInvariant (autoCreate b₁ w).2.1 := by
  refine inv_of_values _ ?_ ?_
  · rw [(autoCreate_config b₁ w).2]
    exact hbt
  · rw [(autoCreate_config b₁ w).1]
    exact hbs

theorem autoCreate_inv_iff (b₁ b : Batch) (w : World) (h1 : b₁.batchSize = b.batchSize)
    (h2 : b₁.batchingType = b.batchingType) (h : configInvariant b) :
    configInvariant (autoCreate b₁ w).2.1 :=
  (configInvariant_iff _ b ((autoCreate_config b₁ w).1.trans h1)
    ((autoCreate_config b₁ w).2.trans h2)).mpr h

theorem applyOp_config_inv (op : Op) (b : Batch) (w : World) (h : configInvariant b) :
    configInvariant (applyOp op b w).2.1 := by
  cases op with
  | oBatchSize v =>
    cases v with
    | pyNone => exact inv_of_none _ rfl rfl
    | pyInt n =>
      simp only [applyOp, set_batch_size]
      split_ifs with hn hd
      · exact h
      · exact autoCreate_inv _ w (by simp) (by simp)
      · exact autoCreate_inv _ w (by simp) (by simp)
    | pyBool x => exact h
    | pyFloat q => exact h
    | pyStr s => exact h
  | oTimeoutRetries v =>
    cases v with
    | pyInt n =>
      simp only [applyOp, set_timeout_retries]
      split_ifs with hn
      · exact h
      · exact (configInvariant_iff _ b rfl rfl).mpr h
    | pyNone => exact h
    | pyBool x => exact h
    | pyFloat q => exact h
    | pyStr s => exact h
  | oCreationTime v =>
    simp only [applyOp, set_creation_time]
    cases hv : realOfPyVal v with
    | none => exact h
    | some q =>
      dsimp only
      split_ifs with hq hbtn
      · exact h
      · exact (configInvariant_iff _ b rfl rfl).mpr h
      · exact autoCreate_inv_iff _ b w rfl rfl h
  | oDynamic v =>
    cases v with
    | pyBool d =>
      simp only [applyOp, set_dynamic]
      split_ifs with hbtn hd
      · exact h
      · exact autoCreate_inv _ w (by simp) (fun hc => hbtn (h.mpr hc))
      · exact autoCreate_inv _ w (by simp) (fun hc => hbtn (h.mpr hc))
    | pyNone => exact h
    | pyInt n => exact h
    | pyFloat q => exact h
    | pyStr s => exact h
  | oConfigure bs ct tr dyn =>
    simp only [applyOp, configure]
    cases hct : realOfPyVal ct with
    | none => exact h
    | some q =>
      dsimp only
      split_ifs with hq
      · exact h
      · cases tr with
        | pyInt trn =>
          dsimp only
          split_ifs with htrn
          · exact h
          · cases bs with
            | pyNone =>
              cases dyn with
              | pyBool d => exact inv_of_none _ rfl rfl
              | pyNone => exact h
              | pyInt n => exact h
              | pyFloat q₂ => exact h
              | pyStr s => exact h
            | pyInt n =>
              dsimp only
              split_ifs with hn
              · exact h
              · cases dyn with
                | pyBool d =>
                  cases d with
                  | false => exact autoCreate_inv _ w (by simp) (by simp)
                  | true => exact autoCreate_inv _ w (by simp) (by simp)
                | pyNone => exact h
                | pyInt n₂ => exact h
                | pyFloat q₂ => exact h
                | pyStr s => exact h
            | pyBool x => exact h
            | pyFloat q₂ => exact h
            | pyStr s => exact h
        | pyNone => exact h
        | pyBool x => exact h
        | pyFloat q₂ => exact h
        | pyStr s => exact h
  | oAddObject o =>
    simp only [applyOp, add_data_object]
    split_ifs with hbtn
    · exact (configInvariant_iff _ b rfl rfl).mpr h
    · exact autoCreate_inv_iff _ b w rfl rfl h
  | oAddReference r =>
    simp only [applyOp, add_reference]
    split_ifs with hbtn
    · exact (configInvariant_iff _ b rfl rfl).mpr h
    · exact autoCreate_inv_iff _ b w rfl rfl h
  | oCreateObjects =>
    simp only [applyOp]
    cases hres : (create_objects b w).1 with
    | error e =>
      exact (configInvariant_iff _ b (create_objects_config b w).1
        (create_objects_config b w).2.1).mpr h
    | ok c =>
      exact (configInvariant_iff _ b (create_objects_config b w).1
        (create_objects_config b w).2.1).mpr h
  | oCreateReferences =>
    simp only [applyOp]
    cases hres : (create_references b w).1 with
    | error e =>
      exact (configInvariant_iff _ b (create_references_config b w).1
        (create_references_config b w).2.1).mpr h
    | ok c =>
      exact (configInvariant_iff _ b (create_references_config b w).1
        (create_references_config b w).2.1).mpr h
  | oFlush =>
    exact (configInvariant_iff _ b (flush_config b w).1 (flush_config b w).2.1).mpr h

theorem stepOp_config_inv (op : Op) (s : Batch × World) (h : configInvariant s.1) :
    configInvariant (stepOp op s).1 :=
  applyOp_config_inv op s.1 s.2 h

theorem runOps_config_inv (ops : List Op) :
    ∀ (s : Batch × World), configInvariant s.1 → configInvariant (runOps ops s).1 := by
  induction ops with
  | nil =>
    intro s h
    exact h
  | cons op rest ih =>
    intro s h
    exact ih (stepOp op s) (stepOp_config_inv op s h)

/-- C5: over every sequence of configuration calls, setter invocations
and enqueue/flush operations starting from a fresh controller, the
invariant batching_type = none if and only if batch_size = None holds;
the `batch_size` setter with a positive int yields `fixed` mode unless
`dynamic` mode was already active (then it stays `dynamic`) and stores
the size; the `batch_size` setter with `None` resets the mode to none
and clears the size. -/
theorem batching_type_invariant :
    (∀ (ops : List Op) (w : World), configInvariant (runOps ops (initialBatch, w)).1)
    ∧ (∀ (b : Batch) (w : World) (n : Int), 0 < n →
      ((set_batch_size (.pyInt n) b w).2.1.batchingType =
        if b.batchingType = .dynamic then .dynamic else .fixed)
      ∧ (set_batch_size (.pyInt n) b w).2.1.batchSize = some n.toNat)
    ∧ (∀ (b : Batch) (w : World),
      (set_batch_size .pyNone b w).2.1.batchingType = .none
      ∧ (set_batch_size .pyNone b w).2.1.batchSize = Option.none) := by
  refine ⟨?_, ?_, ?_⟩
  · intro ops w
    exact runOps_config_inv ops (initialBatch, w) (inv_of_none initialBatch rfl rfl)
  · intro b w n hn
    simp only [set_batch_size]
    rw [if_neg (by omega : ¬ n ≤ 0)]
    exact ⟨(autoCreate_config _ w).2, (autoCreate_config _ w).1⟩
  · intro b w
    exact ⟨rfl, rfl⟩

/-- Witness for C5: a concrete operation sequence keeps the invariant,
and the `batch_size` setter at 5 on a fresh controller selects fixed
mode and stores the size. -/
theorem batching_type_invariant_witness :
    (0 : Int) < 5
    ∧ ((set_batch_size (.pyInt 5) initialBatch okWorld).2.1.batchingType =
        if initialBatch.batchingType = .dynamic then .dynamic else .fixed)
    ∧ (set_batch_size (.pyInt 5) initialBatch okWorld).2.1.batchSize = some (5 : Int).toNat
    ∧ configInvariant
        (runOps [.oBatchSize (.pyInt 5), .oDynamic (.pyBool true), .oAddObject pObj]
          (initialBatch, okWorld)).1 :=
  ⟨by decide,
   (batching_type_invariant.2.1 initialBatch okWorld 5 (by decide)).1,
   (batching_type_invariant.2.1 initialBatch okWorld 5 (by decide)).2,
   batching_type_invariant.1 [.oBatchSize (.pyInt 5), .oDynamic (.pyBool true), .oAddObject pObj]
     okWorld⟩

/-- C9: invalid inputs to the `batch_size` or `timeout_retries` setters
and to `configure` raise the right exception class and leave the whole
controller state (and the world) untouched: a bool or other non-int
value raises TypeError, a non-positive `batch_size` raises ValueError,
a negative `timeout_retries` raises ValueError, from the setter and
from `configure` alike (the `configure` conjuncts take the other
parameters valid so that the named field is the one that raises). -/
theorem invalid_config_rejected :
    (∀ (b : Batch) (v : PyVal), isNonIntVal v = true →
      set_timeout_retries v b = (some (.typeError "timeout_retries"), b))
    ∧ (∀ (b : Batch) (n : Int), n < 0 →
      set_timeout_retries (.pyInt n) b = (some (.valueError "timeout_retries"), b))
    ∧ (∀ (b : Batch) (w : World) (v : PyVal), isNonIntVal v = true → v ≠ .pyNone →
      set_batch_size v b w = (some (.typeError "batch_size"), b, w))
    ∧ (∀ (b : Batch) (w : World) (n : Int), n ≤ 0 →
      set_batch_size (.pyInt n) b w = (some (.valueError "batch_size"), b, w))
    ∧ (∀ (b : Batch) (w : World) (bs : PyVal) (q : ℚ) (v : PyVal) (dyn : PyVal), 0 < q →
      isNonIntVal v = true →
      configure bs (.pyFloat q) v dyn b w = (some (.typeError "timeout_retries"), b, w))
    ∧ (∀ (b : Batch) (w : World) (bs : PyVal) (q : ℚ) (m : Int) (dyn : PyVal), 0 < q → m < 0 →
      configure bs (.pyFloat q) (.pyInt m) dyn b w
        = (some (.valueError "timeout_retries"), b, w))
    ∧ (∀ (b : Batch) (w : World) (q : ℚ) (m : Int) (d : Bool) (v : PyVal), 0 < q → 0 ≤ m →
      isNonIntVal v = true → v ≠ .pyNone →
      configure v (.pyFloat q) (.pyInt m) (.pyBool d) b w
        = (some (.typeError "batch_size"), b, w))
    ∧ (∀ (b : Batch) (w : World) (q : ℚ) (m : Int) (d : Bool) (n : Int), 0 < q → 0 ≤ m →
      n ≤ 0 →
      configure (.pyInt n) (.pyFloat q) (.pyInt m) (.pyBool d) b w
        = (some (.valueError "batch_size"), b, w)) := by
  refine ⟨?_, ?_, ?_, ?_, ?_, ?_, ?_, ?_⟩
  · intro b v hv
    cases v with
    | pyInt n => simp [isNonIntVal] at hv
    | pyNone => rfl
    | pyBool x => rfl
    | pyFloat q => rfl
    | pyStr s => rfl
  · intro b n hn
    simp only [set_timeout_retries]
    rw [if_pos hn]
  · intro b w v hv hvn
    cases v with
    | pyInt n => simp [isNonIntVal] at hv
    | pyNone => exact absurd rfl hvn
    | pyBool x => rfl
    | pyFloat q => rfl
    | pyStr s => rfl
  · intro b w n hn
    simp only [set_batch_size]
    rw [if_pos hn]
  · intro b w bs q v dyn hq hv
    cases v with
    | pyInt m => simp [isNonIntVal] at hv
    | pyNone =>
      simp only [configure, realOfPyVal]
      rw [if_neg (not_le.mpr hq)]
    | pyBool x =>
      simp only [configure, realOfPyVal]
      rw [if_neg (not_le.mpr hq)]
    | pyFloat q₂ =>
      simp only [configure, realOfPyVal]
      rw [if_neg (not_le.mpr hq)]
    | pyStr s =>
      simp only [configure, realOfPyVal]
      rw [if_neg (not_le.mpr hq)]
  · intro b w bs q m dyn hq hm
    simp only [configure, realOfPyVal]
    rw [if_neg (not_le.mpr hq)]
    try dsimp only
    rw [if_pos hm]
  · intro b w q m d v hq hm hv hvn
    cases v with
    | pyInt n => simp [isNonIntVal] at hv
    | pyNone => exact absurd rfl hvn
    | pyBool x =>
      simp only [configure, realOfPyVal]
      rw [if_neg (not_le.mpr hq)]
      try dsimp only
      rw [if_neg (not_lt.mpr hm)]
    | pyFloat q₂ =>
      simp only [configure, realOfPyVal]
      rw [if_neg (not_le.mpr hq)]
      try dsimp only
      rw [if_neg (not_lt.mpr hm)]
    | pyStr s =>
      simp only [configure, realOfPyVal]
      rw [if_neg (not_le.mpr hq)]
      try dsimp only
      rw [if_neg (not_lt.mpr hm)]
  · intro b w q m d n hq hm hn
    simp only [configure, realOfPyVal]
    rw [if_neg (not_le.mpr hq)]
    try dsimp only
    rw [if_neg (not_lt.mpr hm)]
    try dsimp only
    rw [if_pos hn]

/-- Witness for C9 at concrete invalid inputs on a fresh controller. -/
theorem invalid_config_rejected_witness :
    isNonIntVal (.pyBool true) = true
    ∧ set_timeout_retries (.pyBool true) initialBatch
        = (some (.typeError "timeout_retries"), initialBatch)
    ∧ ((-1 : Int) < 0)
    ∧ set_timeout_retries (.pyInt (-1)) initialBatch
        = (some (.valueError "timeout_retries"), initialBatch)
    ∧ set_batch_size (.pyFloat (201 / 2)) initialBatch okWorld
        = (some (.typeError "batch_size"), initialBatch, okWorld)
    ∧ set_batch_size (.pyInt 0) initialBatch okWorld
        = (some (.valueError "batch_size"), initialBatch, okWorld)
    ∧ configure (.pyBool false) (.pyFloat 20) (.pyInt 2) (.pyBool true) initialBatch okWorld
        = (some (.typeError "batch_size"), initialBatch, okWorld) := by
  refine ⟨rfl, ?_, by decide, ?_, ?_, ?_, ?_⟩
  · exact invalid_config_rejected.1 initialBatch (.pyBool true) rfl
  · exact invalid_config_rejected.2.1 initialBatch (-1) (by decide)
  · exact invalid_config_rejected.2.2.1 initialBatch okWorld (.pyFloat (201 / 2)) rfl
      (by decide)
  · exact invalid_config_rejected.2.2.2.1 initialBatch okWorld 0 (by decide)
  · exact invalid_config_rejected.2.2.2.2.2.2.1 initialBatch okWorld 20 2 true
      (.pyBool false) (by norm_num) (by decide) rfl (by decide)

/-- C6 counterexample: a fixed-mode controller at its flush threshold
(one buffered object, batch size 1) with recommended counts 100 and 200
and creation time 5.  Setting `creation_time` to 20 first rescales the
counts (100 would become 400), but the auto-flush check run by the
setter then flushes the buffered object, and the successful submission
(elapsed 1 second) overwrites `recommended_num_objects` with
`floor(1 * 20 / 1) = 20` instead of the claimed `100 * 20 / 5 = 400`. -/
theorem creation_time_rescale_cex :
    rescaleCexBatch.recommendedNumObjects = some 100
    ∧ rescaleCexBatch.recommendedNumReferences = some 200
    ∧ rescaleCexBatch.creationTime = 5
    ∧ (100 : ℚ) * (20 : ℚ) / (5 : ℚ) = (400 : ℚ)
    ∧ (set_creation_time (.pyFloat 20) rescaleCexBatch okWorld).2.1.recommendedNumObjects
        = some 20
    ∧ (20 : ℕ) ≠ 400 := by
  refine ⟨rfl, rfl, rfl, by norm_num, ?_, by decide⟩
  have h1 : set_creation_time (.pyFloat 20) rescaleCexBatch okWorld
      = autoCreate (rescaledBatch rescaleCexBatch 20) okWorld := by
    simp only [set_creation_time, realOfPyVal]
    rw [if_neg (by norm_num), if_neg (by decide)]
  rw [h1]
  have h2 : autoCreate (rescaledBatch rescaleCexBatch 20) okWorld
      = flush (rescaledBatch rescaleCexBatch 20) okWorld := by
    unfold autoCreate
    rw [if_pos (by decide), if_pos (by decide)]
  rw [h2]
  rw [flush_first_ok (rescaledBatch rescaleCexBatch 20) okWorld "Test" 1 (by decide) rfl rfl]
  dsimp only
  have h3 : (((rescaledBatch rescaleCexBatch 20).objects.length : ℕ) : ℚ)
      * (rescaledBatch rescaleCexBatch 20).creationTime / 1 = ((20 : ℕ) : ℚ) := by
    show ((1 : ℕ) : ℚ) * (20 : ℚ) / 1 = ((20 : ℕ) : ℚ)
    push_cast
    norm_num
  rw [h3, qfloorNat_natCast]

/-- C6 (amended): for every controller whose recommended counts are
both set and whose containers are both empty (so that the auto-flush
check run by the setter cannot submit anything and overwrite a count),
assigning a new positive creation time `t2` over the current `t1`
rescales both recommended counts by `t2 / t1` (stored floored; exact
multiplication whenever the products are whole numbers, as in the
pinned example 100/200 with 5 to 20 becoming 400/800), and this holds
regardless of `batching_type`. -/
theorem creation_time_rescales_recommended (b : Batch) (w : World) (q : ℚ) (ro rr : Nat)
    (hro : b.recommendedNumObjects = some ro)
    (hrr : b.recommendedNumReferences = some rr)
    (hq : 0 < q)
    (ho : b.objects = [])
    (hr : b.references = []) :
    (set_creation_time (.pyFloat q) b w).2.1 =
      { b with
          creationTime := q
          recommendedNumObjects := some (rescaleCount ro q b.creationTime)
          recommendedNumReferences := some (rescaleCount rr q b.creationTime) }
    ∧ (∀ (ko kr : Nat), (ro : ℚ) * q / b.creationTime = ((ko : ℕ) : ℚ) →
        (rr : ℚ) * q / b.creationTime = ((kr : ℕ) : ℚ) →
        (set_creation_time (.pyFloat q) b w).2.1.recommendedNumObjects = some ko
        ∧ (set_creation_time (.pyFloat q) b w).2.1.recommendedNumReferences = some kr) := by
  have hmain : (set_creation_time (.pyFloat q) b w).2.1 =
      { b with
          creationTime := q
          recommendedNumObjects := some (rescaleCount ro q b.creationTime)
          recommendedNumReferences := some (rescaleCount rr q b.creationTime) } := by
    simp only [set_creation_time, realOfPyVal]
    rw [if_neg (not_le.mpr hq)]
    split_ifs with hbt
    · simp [rescaledBatch, hro, hrr]
    · rw [autoCreate_empty (rescaledBatch b q) w ho hr]
      simp [rescaledBatch, hro, hrr]
  refine ⟨hmain, ?_⟩
  intro ko kr hko hkr
  rw [hmain]
  dsimp only
  constructor
  · unfold rescaleCount
    rw [hko, qfloorNat_natCast]
  · unfold rescaleCount
    rw [hkr, qfloorNat_natCast]

/-- Witness for the amended C6: recommended counts 100 and 200 with
creation time changing from 5 to 20 become 400 and 800, on a controller
with empty containers and batching disabled. -/
theorem creation_time_rescales_recommended_witness :
    rescaleOkBatch.recommendedNumObjects = some 100
    ∧ rescaleOkBatch.recommendedNumReferences = some 200
    ∧ rescaleOkBatch.creationTime = 5
    ∧ (set_creation_time (.pyFloat 20) rescaleOkBatch okWorld).2.1.recommendedNumObjects
        = some 400
    ∧ (set_creation_time (.pyFloat 20) rescaleOkBatch okWorld).2.1.recommendedNumReferences
        = some 800 := by
  have h := (creation_time_rescales_recommended rescaleOkBatch okWorld 20 100 200 rfl rfl
    (by norm_num) rfl rfl).2 400 800 (by norm_num [rescaleOkBatch, initialBatch])
    (by norm_num [rescaleOkBatch, initialBatch])
  exact ⟨rfl, rfl, rfl, h.1, h.2⟩

end WeaviateClient
